import Mathlib

/-!
# Verification of the raiden CLI startup/shutdown orchestrator

Shallow embedding of `src/raiden/ui/cli.py` (the `app` and `run` commands):
credential resolution with bounded passphrase retries, RPC endpoint parsing,
CORS-domain parsing, and the startup/shutdown orchestration trace.

Python strings are modelled as `List Char` (`PyStr`); Python truthiness of a
string is non-emptiness.  The fallible parts return `Option`, with `none`
standing for the uncaught Python exception on that path.
-/

/-- Python strings, modelled as character lists. -/
abbrev PyStr := List Char

namespace RaidenCli

/-- Model of Python `str.splitlines` for inputs whose only line terminator is
a newline character: the empty string yields `[]`, otherwise the string is
split at every newline, a trailing newline acting as a terminator (it does not
produce a final empty line). -/
def splitlines (s : PyStr) : List PyStr :=
  match s with
  | [] => []
  | c :: rest =>
      if c = '\n' then [] :: splitlines rest
      else
        match splitlines rest with
        | [] => [[c]]
        | line :: more => (c :: line) :: more

/-- Model of Python `str.split(sep)` for a one-character separator: always
returns one more part than there are separators (so the empty string yields
`[[]]`). -/
def splitOnChar (sep : Char) (s : PyStr) : List PyStr :=
  match s with
  | [] => [[]]
  | c :: rest =>
      if c = sep then [] :: splitOnChar sep rest
      else
        match splitOnChar sep rest with
        | [] => [[c]]
        | part :: more => (c :: part) :: more

/-- Outcome of the private-key unlock section of `app` (cli.py lines 214-243):
either the private key was obtained, or the process printed a message and
called `sys.exit(1)`.  In both cases we record how many calls to
`accmgr.get_privkey` were made. -/
inductive UnlockResult
  | unlocked (attempts : Nat)
  | exitStatus (status : Nat) (attempts : Nat)
  deriving DecidableEq, Repr

/-- The interactive passphrase loop of `app` (cli.py lines 224-243):

```
unlock_tries = 3
while True:
    try:
        privatekey_bin = accmgr.get_privkey(address)
        break
    except ValueError:
        if unlock_tries == 0:
            print(exhausted); sys.exit(1)
        print(incorrect, tries remaining)
        unlock_tries -= 1
```

`attemptOk i` tells whether the passphrase typed at the i-th prompt (0-based)
unlocks the key (`get_privkey` raising `ValueError` on a wrong passphrase).
`go` carries the remaining `unlock_tries` and the index of the next prompt. -/
def interactiveUnlockGo (attemptOk : Nat → Bool) : Nat → Nat → UnlockResult
  | tries, idx =>
      if attemptOk idx then .unlocked (idx + 1)
      else
        match tries with
        | 0 => .exitStatus 1 (idx + 1)
        | t + 1 => interactiveUnlockGo attemptOk t (idx + 1)

/-- Entry point of the interactive loop: `unlock_tries = 3`, first prompt. -/
def interactiveUnlock (attemptOk : Nat → Bool) : UnlockResult :=
  interactiveUnlockGo attemptOk 3 0

/-- The password handling of `app` (cli.py lines 214-243):

```
password = None
if password_file:
    password = password_file.read().splitlines()[0]
if password:
    try: privatekey_bin = accmgr.get_privkey(address, password)
    except ValueError: print(incorrect); sys.exit(1)
else:
    <interactive loop>
```

`password_file` is the file's full contents when the option was given.
`passwordOk pw` tells whether `get_privkey(address, pw)` succeeds.  The outer
`none` models the uncaught `IndexError` of `splitlines()[0]` on a file with no
lines; Python string truthiness makes an empty first line fall through to the
interactive branch. -/
def resolveUnlock (password_file : Option PyStr)
    (passwordOk : PyStr → Bool) (attemptOk : Nat → Bool) : Option UnlockResult :=
  let passwordStep : Option (Option PyStr) :=
    match password_file with
    | none => some none
    | some contents =>
        match splitlines contents with
        | [] => none
        | firstLine :: _ => some (some firstLine)
  match passwordStep with
  | none => none
  | some password =>
      let truthy : Bool :=
        match password with
        | none => false
        | some pw => !pw.isEmpty
      if truthy then
        match password with
        | none => none
        | some pw =>
            if passwordOk pw then some (.unlocked 1)
            else some (.exitStatus 1 1)
      else some (interactiveUnlock attemptOk)

/-- Digit-string to number conversion used by the spec-modelled
`split_endpoint`: accepts exactly the non-empty all-digit strings
(non-negative integers). -/
def parsePyNat (s : PyStr) : Option Nat :=
  if !s.isEmpty && s.all (fun c => c.isDigit) then
    some (s.foldl (fun n c => 10 * n + (c.toNat - 48)) 0)
  else none

/-- Modelled from the spec: `split_endpoint` is imported from `raiden.utils`,
whose source is not part of this repository snapshot.  Per the spec it parses
a host-colon-port string by splitting on the last colon separator, and fails
with `MalformedEndpoint` (here `none`) if no separator is present or the port
segment is not a non-negative integer. -/
def split_endpoint (s : PyStr) : Option (PyStr × Nat) :=
  let parts := splitOnChar ':' s
  match parts with
  | [] => none
  | [_] => none
  | _ :: _ :: _ =>
      match parsePyNat (parts.getLastD []) with
      | none => none
      | some port => some (List.intercalate [':'] parts.dropLast, port)

/-- The characters of the scheme marker stripped by the `http://` branch. -/
def httpScheme : PyStr := ['h', 't', 't', 'p', ':', '/', '/']

/-- The characters of the scheme marker stripped by the `https://` branch. -/
def httpsScheme : PyStr := ['h', 't', 't', 'p', 's', ':', '/', '/']

/-- The RPC endpoint handling of `app` (cli.py lines 248-260):

```
endpoint = eth_rpc_endpoint
if eth_rpc_endpoint.startswith(http-scheme):
    endpoint = eth_rpc_endpoint[7:]; rpc_port = 80
elif eth_rpc_endpoint.startswith(https-scheme):
    endpoint = eth_rpc_endpoint[8:]; rpc_port = 443
if colon not in endpoint:
    rpc_host = endpoint
else:
    rpc_host, rpc_port = split_endpoint(endpoint)
```

Result is `(rpc_host, rpc_port)`.  The port component is an `Option Nat`:
`none` models the Python local variable `rpc_port` being left unassigned (no
scheme marker and no colon), which crashes with `UnboundLocalError` when first
used.  The outer `none` models `split_endpoint` raising `MalformedEndpoint`. -/
def parseRpcEndpoint (eth_rpc_endpoint : PyStr) : Option (PyStr × Option Nat) :=
  let stripped : PyStr × Option Nat :=
    if eth_rpc_endpoint.take 7 = httpScheme then
      (eth_rpc_endpoint.drop 7, some 80)
    else if eth_rpc_endpoint.take 8 = httpsScheme then
      (eth_rpc_endpoint.drop 8, some 443)
    else (eth_rpc_endpoint, none)
  let endpoint := stripped.1
  let rpc_port := stripped.2
  if ':' ∈ endpoint then
    match split_endpoint endpoint with
    | none => none
    | some (host, port) => some (host, some port)
  else some (endpoint, rpc_port)

/-- The CORS-domain handling of `run` (cli.py lines 322-328):

```
domain_list = []
if kwargs[rpccorsdomain-key]:
    if comma in kwargs[rpccorsdomain-key]:
        for domain in kwargs[rpccorsdomain-key].split(comma):
            domain_list.append(str(domain))
    else:
        domain_list.append(str(kwargs[rpccorsdomain-key]))
```

An empty string is falsy, so it yields the empty list; `str(domain)` copies
the element verbatim (no whitespace stripping). -/
def parseCorsDomains (rpccorsdomain : PyStr) : List PyStr :=
  if rpccorsdomain.isEmpty then []
  else if ',' ∈ rpccorsdomain then splitOnChar ',' rpccorsdomain
  else [rpccorsdomain]

/-- How a fatal startup condition leaves the orchestrator:
`raisedRuntimeError` models an exception raised and caught nowhere in this
core (it propagates out of `app`/`run` as an unhandled fault);
`printedExit s` models the pattern `print(message); sys.exit(s)` used by the
credential and registry failure paths; `proceeded` means startup continues. -/
inductive FatalOutcome
  | raisedRuntimeError
  | printedExit (status : Nat)
  | proceeded
  deriving DecidableEq, Repr

/-- The account-directory check of `app` (cli.py lines 186-188):

```
accmgr = AccountManager(keystore_path)
if not accmgr.accounts:
    raise RuntimeError(no-accounts-message)
```

`accounts` is the list of addresses in the keystore.  The raise is not inside
any try block of this file, so it propagates uncaught. -/
def accountsGate (accounts : List PyStr) : FatalOutcome :=
  if accounts.isEmpty then .raisedRuntimeError else .proceeded

/-- The termination signals wired up at the end of `run`. -/
inductive Sig
  | sigquit
  | sigterm
  | sigint
  deriving DecidableEq, Repr

/-- The actions the orchestrator `run` performs, in program order
(cli.py lines 307-365). -/
inductive RunAction
  | acquireSocket
  | invokeApp
  | spawnRegistration
  | registryCall
  | parseCors
  | startApiServer
  | startConsole
  | joinRegistration
  | installHandler (s : Sig)
  | waitEvent
  | stopGraceful
  deriving DecidableEq, Repr

/-- The straight-line action trace of `run` as a function of the `rpc` and
`console` flags: acquire the mapped socket, invoke `app`, spawn the discovery
registration greenlet, perform the synchronous `register_registry` call,
parse the CORS domains, conditionally start the API server and console, join
the registration greenlet, install the three signal handlers, wait on the
termination event, and finally call `app_.stop(graceful=True)`. -/
def runTrace (rpc console : Bool) : List RunAction :=
  [.acquireSocket, .invokeApp, .spawnRegistration, .registryCall, .parseCors]
  ++ (if rpc then [.startApiServer] else [])
  ++ (if console then [.startConsole] else [])
  ++ [.joinRegistration, .installHandler .sigquit, .installHandler .sigterm,
      .installHandler .sigint, .waitEvent, .stopGraceful]

/-- Observable events of a whole-process schedule: completion of a main-task
action, or completion of the spawned registration greenlet. -/
inductive RunEvent
  | act (a : RunAction)
  | registrationCompleted
  deriving DecidableEq, Repr

/-- The main task's events in completion order. -/
def mainEvents (rpc console : Bool) : List RunEvent :=
  (runTrace rpc console).map .act

/-- Insert an event at position `k` of a trace. -/
def insertAt (k : Nat) (e : RunEvent) (tr : List RunEvent) : List RunEvent :=
  tr.take k ++ e :: tr.drop k

/-- Position of the registration spawn in the main trace. -/
def spawnIdx (rpc console : Bool) : Nat :=
  (runTrace rpc console).indexOf .spawnRegistration

/-- Position of the synchronous registry call in the main trace. -/
def registryIdx (rpc console : Bool) : Nat :=
  (runTrace rpc console).indexOf .registryCall

/-- Position of the registration join in the main trace. -/
def joinIdx (rpc console : Bool) : Nat :=
  (runTrace rpc console).indexOf .joinRegistration

/-- Position of the final termination-event wait in the main trace. -/
def waitIdx (rpc console : Bool) : Nat :=
  (runTrace rpc console).indexOf .waitEvent

/-- Position at which the handler of signal `s` is installed. -/
def installIdx (rpc console : Bool) (s : Sig) : Nat :=
  (runTrace rpc console).indexOf (.installHandler s)

/-- A cooperative schedule interleaves the registration greenlet's completion
at some position `k` of the main trace.  The scheduler may pick any `k`
strictly after the spawn; `k ≤ joinIdx` because `registry_event.join()`
blocks until the greenlet has completed, so the completion is no later than
the join. -/
def validSchedule (rpc console : Bool) (k : Nat) : Prop :=
  spawnIdx rpc console < k ∧ k ≤ joinIdx rpc console

/-- State observed by the shutdown coordinator: the gevent event's flag, the
number of unset-to-set transitions it has undergone, and the number of
`app_.stop(graceful=True)` invocations. -/
structure ShutdownState where
  eventSet : Bool
  setTransitions : Nat
  stopCalls : Nat
  deriving DecidableEq, Repr

/-- The effect of `event.set()`: the flag becomes (or stays) set; a
transition is counted only when the flag was previously unset. -/
def eventSetAction (st : ShutdownState) : ShutdownState :=
  { st with eventSet := true,
            setTransitions := st.setTransitions + (if st.eventSet then 0 else 1) }

/-- The handler table installed by `run` (cli.py lines 360-362): each of
SIGQUIT, SIGTERM, SIGINT is bound to `event.set` on the same event. -/
def installedHandler : Sig → ShutdownState → ShutdownState :=
  fun _ => eventSetAction

/-- Deliver a sequence of signals, running the installed handler of each. -/
def deliverAll (sigs : List Sig) (st : ShutdownState) : ShutdownState :=
  sigs.foldl (fun s sg => installedHandler sg s) st

/-- The shutdown tail of `run` (cli.py lines 359-365): the event starts
unset, the delivered signals run their handlers, `event.wait()` returns only
once the event is set, and then the straight-line code calls
`app_.stop(graceful=True)` exactly once. -/
def shutdownRun (sigs : List Sig) : ShutdownState :=
  let st0 : ShutdownState := ⟨false, 0, 0⟩
  let st1 := deliverAll sigs st0
  if st1.eventSet then { st1 with stopCalls := st1.stopCalls + 1 } else st1

/-- A signal delivered when `t` actions of the main trace have completed runs
`event.set` only if its handler installation has already executed
(`installIdx < t`); before that the default disposition applies and the
shutdown event is untouched. -/
def routedToEvent (rpc console : Bool) (s : Sig) (t : Nat) : Bool :=
  decide (installIdx rpc console s < t)

/-- The graceful-stop path runs iff some delivered signal reached the
shutdown event.  A delivery is a pair of the signal and the number of main
actions completed at delivery time. -/
def stopTriggeredBy (rpc console : Bool) (deliveries : List (Sig × Nat)) : Bool :=
  deliveries.any (fun d => routedToEvent rpc console d.1 d.2)

/-! ## Helper lemmas -/

/-- Without a password file the resolver runs the interactive loop. -/
theorem resolveUnlock_no_file (passwordOk : PyStr → Bool) (attemptOk : Nat → Bool) :
    resolveUnlock none passwordOk attemptOk = some (interactiveUnlock attemptOk) := rfl

/-- With a password file whose first line is non-empty, the resolver makes a
single unlock attempt with that line and never consults the prompt stream. -/
theorem resolveUnlock_nonempty_first_line (contents firstLine : PyStr)
    (rest : List PyStr) (passwordOk : PyStr → Bool) (attemptOk : Nat → Bool)
    (hsplit : splitlines contents = firstLine :: rest) (hne : firstLine ≠ []) :
    resolveUnlock (some contents) passwordOk attemptOk
      = some (if passwordOk firstLine then .unlocked 1 else .exitStatus 1 1) := by
  have hemp : firstLine.isEmpty = false := by
    cases firstLine with
    | nil => exact absurd rfl hne
    | cons c cs => rfl
  simp only [resolveUnlock, hsplit, hemp, Bool.not_false, if_true]
  cases hpw : passwordOk firstLine <;> simp [hpw]

/-- The interactive loop consults only the prompts at indices
`idx, ..., idx + tries`. -/
theorem interactiveUnlockGo_congr (a b : Nat → Bool) :
    ∀ tries idx, (∀ i, i < idx + tries + 1 → a i = b i) →
      interactiveUnlockGo a tries idx = interactiveUnlockGo b tries idx := by
  intro tries
  induction tries with
  | zero =>
      intro idx h
      simp only [interactiveUnlockGo]
      rw [h idx (by omega)]
  | succ t ih =>
      intro idx h
      simp only [interactiveUnlockGo]
      rw [h idx (by omega)]
      cases hb : b idx with
      | true => rfl
      | false =>
          simp only [Bool.false_eq_true, if_false]
          exact ih (idx + 1) (fun i hi => h i (by omega))

/-! ## Claims -/

/-- C2: with no password supplied, interactive unlocking makes at most 4
attempts (3 retries after the first failure).  For every prompt stream whose
first 4 entries are incorrect, the run exits with status 1 after the 4th
attempt; the outcome depends only on the first 4 prompt results, so a 5th
attempt is never made; a correct passphrase at any of the 4 attempts yields
the private key. -/
theorem c2_interactive_retry_budget (passwordOk : PyStr → Bool) (attemptOk : Nat → Bool) :
    ((∀ i, i < 4 → attemptOk i = false) →
        resolveUnlock none passwordOk attemptOk = some (.exitStatus 1 4)) ∧
    (∀ k, k < 4 → attemptOk k = true → (∀ i, i < k → attemptOk i = false) →
        resolveUnlock none passwordOk attemptOk = some (.unlocked (k + 1))) ∧
    (∀ other : Nat → Bool, (∀ i, i < 4 → attemptOk i = other i) →
        resolveUnlock none passwordOk attemptOk = resolveUnlock none passwordOk other) := by
  refine ⟨?_, ?_, ?_⟩
  · intro h
    rw [resolveUnlock_no_file]
    simp [interactiveUnlock, interactiveUnlockGo,
      h 0 (by omega), h 1 (by omega), h 2 (by omega), h 3 (by omega)]
  · intro k hk hkOk hbefore
    rw [resolveUnlock_no_file]
    interval_cases k
    · simp [interactiveUnlock, interactiveUnlockGo, hkOk]
    · simp [interactiveUnlock, interactiveUnlockGo, hkOk, hbefore 0 (by omega)]
    · simp [interactiveUnlock, interactiveUnlockGo, hkOk,
        hbefore 0 (by omega), hbefore 1 (by omega)]
    · simp [interactiveUnlock, interactiveUnlockGo, hkOk,
        hbefore 0 (by omega), hbefore 1 (by omega), hbefore 2 (by omega)]
  · intro other hagree
    rw [resolveUnlock_no_file, resolveUnlock_no_file]
    exact congrArg some (interactiveUnlockGo_congr attemptOk other 3 0
      (fun i hi => hagree i (by omega)))

/-- Witness for C2: the all-incorrect prompt stream exits with status 1
after exactly 4 attempts. -/
theorem c2_interactive_retry_budget_witness :
    resolveUnlock none (fun _ => false) (fun _ => false)
      = some (.exitStatus 1 4) :=
  (c2_interactive_retry_budget (fun _ => false) (fun _ => false)).1
    (fun _ _ => rfl)

/-- C3: with a password file whose first newline-delimited line is a
non-empty (hence truthy) password, exactly one unlock attempt is made: an
incorrect password exits with status 1 after that single attempt, a correct
one unlocks; the interactive prompt stream is never consulted, so no retry
loop is entered. -/
theorem c3_password_file_single_attempt (contents firstLine : PyStr)
    (passwordOk : PyStr → Bool) (a b : Nat → Bool)
    (hhead : (splitlines contents).head? = some firstLine)
    (hne : firstLine ≠ []) :
    resolveUnlock (some contents) passwordOk a
      = some (if passwordOk firstLine then .unlocked 1 else .exitStatus 1 1) ∧
    resolveUnlock (some contents) passwordOk a
      = resolveUnlock (some contents) passwordOk b := by
  obtain ⟨rest, hsplit⟩ : ∃ rest, splitlines contents = firstLine :: rest := by
    cases hl : splitlines contents with
    | nil => rw [hl] at hhead; exact absurd hhead (by simp)
    | cons x xs =>
        rw [hl] at hhead
        simp only [List.head?_cons, Option.some.injEq] at hhead
        exact ⟨xs, by rw [hhead]⟩
  refine ⟨resolveUnlock_nonempty_first_line contents firstLine rest passwordOk a hsplit hne, ?_⟩
  rw [resolveUnlock_nonempty_first_line contents firstLine rest passwordOk a hsplit hne,
    resolveUnlock_nonempty_first_line contents firstLine rest passwordOk b hsplit hne]

/-- Witness for C3: a file reading `wrong` with a password check that rejects
it exits with status 1 after the single attempt. -/
theorem c3_password_file_single_attempt_witness :
    resolveUnlock (some ("wrong\n".toList)) (fun _ => false) (fun _ => true)
      = some (.exitStatus 1 1) := by
  have h := c3_password_file_single_attempt ("wrong\n".toList) ("wrong".toList)
    (fun _ => false) (fun _ => true) (fun _ => false) (by decide) (by decide)
  exact h.1

/-- C9: a password file whose first line is the empty string is falsy, so the
single-attempt path is not taken and resolution falls through to the
interactive passphrase loop (with its 3-retry budget), exactly as if no
password had been supplied. -/
theorem c9_empty_first_line_falls_through (contents : PyStr)
    (passwordOk : PyStr → Bool) (attemptOk : Nat → Bool)
    (hhead : (splitlines contents).head? = some []) :
    resolveUnlock (some contents) passwordOk attemptOk
      = some (interactiveUnlock attemptOk) ∧
    resolveUnlock (some contents) passwordOk attemptOk
      = resolveUnlock none passwordOk attemptOk := by
  obtain ⟨rest, hsplit⟩ : ∃ rest, splitlines contents = [] :: rest := by
    cases hl : splitlines contents with
    | nil => rw [hl] at hhead; exact absurd hhead (by simp)
    | cons x xs =>
        rw [hl] at hhead
        simp only [List.head?_cons, Option.some.injEq] at hhead
        exact ⟨xs, by rw [hhead]⟩
  have : resolveUnlock (some contents) passwordOk attemptOk
      = some (interactiveUnlock attemptOk) := by
    simp [resolveUnlock, hsplit]
  exact ⟨this, by rw [this, resolveUnlock_no_file]⟩

/-- Witness for C9: a file starting with a blank line falls through to the
interactive loop, which on all-incorrect prompts exits after 4 attempts. -/
theorem c9_empty_first_line_falls_through_witness :
    resolveUnlock (some ("\nsecret".toList)) (fun _ => false) (fun _ => false)
      = some (.exitStatus 1 4) := by
  have h := c9_empty_first_line_falls_through ("\nsecret".toList)
    (fun _ => false) (fun _ => false) (by decide)
  rw [h.1]
  rfl

/-- Splitting on a character that does not occur returns the whole string as
the single part. -/
theorem splitOnChar_not_mem (c : Char) (s : PyStr) (h : c ∉ s) :
    splitOnChar c s = [s] := by
  induction s with
  | nil => rfl
  | cons x xs ih =>
      have hx : ¬(x = c) := by
        intro hxc
        exact h (hxc ▸ List.mem_cons_self x xs)
      have hxs : c ∉ xs := fun hm => h (List.mem_cons_of_mem x hm)
      simp only [splitOnChar, if_neg hx, ih hxs]

/-- C4: for an endpoint carrying an `http://` or `https://` scheme marker,
the marker is stripped; if the remainder has no colon the result is the
remainder with default port 80 (http) or 443 (https); if the remainder has a
colon, host and port come from `split_endpoint` on the remainder instead of
the default. -/
theorem c4_rpc_prefixed_endpoint (rest : PyStr) :
    (':' ∉ rest →
        parseRpcEndpoint (httpScheme ++ rest) = some (rest, some 80) ∧
        parseRpcEndpoint (httpsScheme ++ rest) = some (rest, some 443)) ∧
    (':' ∈ rest →
        parseRpcEndpoint (httpScheme ++ rest)
          = (split_endpoint rest).map (fun hp => (hp.1, some hp.2)) ∧
        parseRpcEndpoint (httpsScheme ++ rest)
          = (split_endpoint rest).map (fun hp => (hp.1, some hp.2))) := by
  have htake7 : (httpScheme ++ rest).take 7 = httpScheme := rfl
  have hdrop7 : (httpScheme ++ rest).drop 7 = rest := rfl
  have htake7s : ¬((httpsScheme ++ rest).take 7 = httpScheme) := by
    have : (httpsScheme ++ rest).take 7 = ['h', 't', 't', 'p', 's', ':', '/'] := rfl
    rw [this]
    decide
  have htake8 : (httpsScheme ++ rest).take 8 = httpsScheme := rfl
  have hdrop8 : (httpsScheme ++ rest).drop 8 = rest := rfl
  constructor
  · intro hno
    constructor
    · simp [parseRpcEndpoint, htake7, hdrop7, hno]
    · simp [parseRpcEndpoint, htake7s, htake8, hdrop8, hno]
  · intro hyes
    constructor
    · simp only [parseRpcEndpoint, htake7, hdrop7, if_pos rfl, hyes, if_true]
      cases hsp : split_endpoint rest with
      | none => simp
      | some hp => simp
    · simp only [parseRpcEndpoint, if_neg htake7s, htake8, hdrop8, if_pos rfl, hyes, if_true]
      cases hsp : split_endpoint rest with
      | none => simp
      | some hp => simp

/-- Witness for C4: concrete endpoints with and without an explicit port. -/
theorem c4_rpc_prefixed_endpoint_witness :
    parseRpcEndpoint (httpScheme ++ "myhost".toList)
        = some ("myhost".toList, some 80) ∧
    parseRpcEndpoint (httpsScheme ++ "myhost".toList)
        = some ("myhost".toList, some 443) ∧
    parseRpcEndpoint (httpScheme ++ "myhost:123".toList)
        = some ("myhost".toList, some 123) := by
  have h1 := (c4_rpc_prefixed_endpoint ("myhost".toList)).1 (by decide)
  have h2 := (c4_rpc_prefixed_endpoint ("myhost:123".toList)).2 (by decide)
  exact ⟨h1.1, h1.2, h2.1.trans (by decide)⟩

/-- C5: evaluating the code at the failing input: an endpoint with neither
scheme marker nor colon leaves the `rpc_port` local unassigned (modelled as a
`none` port, which in Python crashes with `UnboundLocalError` at first use)
instead of failing with `MalformedEndpoint`. -/
theorem c5_no_scheme_no_colon_port_unassigned :
    parseRpcEndpoint ("mynode".toList) = some ("mynode".toList, none) := by
  decide

/-- C6 counterexample: with an empty account directory, the code raises an
uncaught RuntimeError (which propagates out of the orchestrator as an
unhandled fault); it is not the caught print-and-exit-1 outcome the claim
describes. -/
theorem c6_counterexample :
    accountsGate [] = .raisedRuntimeError ∧
    accountsGate [] ≠ .printedExit 1 := by
  decide

/-- C6 amended: if the Account Directory is empty at load time, startup
fails fatally by raising a RuntimeError that no code in this core catches
(the process then dies through the unhandled-exception path), never through
the explicit print-and-exit path used by the other fatal conditions. -/
theorem c6_empty_accounts_raises_uncaught :
    accountsGate [] = .raisedRuntimeError ∧
    (∀ n, accountsGate [] ≠ .printedExit n) ∧
    (∀ accounts, accountsGate accounts = .raisedRuntimeError ∨
        accountsGate accounts = .proceeded) := by
  refine ⟨rfl, ?_, ?_⟩
  · intro n h
    cases h
  intro accounts
  by_cases he : accounts.isEmpty
  · exact Or.inl (by simp [accountsGate, he])
  · exact Or.inr (by simp [accountsGate, he])

/-- C7 counterexample: the code does not trim whitespace around the split
elements: the input with a space after the comma keeps the space in the
second element. -/
theorem c7_counterexample :
    parseCorsDomains ("a, b".toList) = ["a".toList, " b".toList] ∧
    parseCorsDomains ("a, b".toList) ≠ ["a".toList, "b".toList] := by
  decide

/-- C7 amended: the CORS input is parsed into an ordered list by splitting
on commas with each element kept verbatim (no whitespace trimming); empty
input yields the empty list; in particular a comma-free non-empty input
yields the one-element list, and the plain input a,b,c yields exactly its
three parts in order. -/
theorem c7_cors_split_untrimmed (s : PyStr) :
    parseCorsDomains s = (if s.isEmpty then [] else splitOnChar ',' s) ∧
    parseCorsDomains ("a,b,c".toList)
      = ["a".toList, "b".toList, "c".toList] := by
  refine ⟨?_, by decide⟩
  by_cases he : s.isEmpty
  · simp [parseCorsDomains, he]
  · by_cases hc : ',' ∈ s
    · simp [parseCorsDomains, he, hc]
    · simp [parseCorsDomains, he, hc, splitOnChar_not_mem ',' s hc]

/-- Delivering signals to an already-set event changes nothing. -/
theorem deliverAll_of_set (sigs : List Sig) :
    ∀ st : ShutdownState, st.eventSet = true → deliverAll sigs st = st := by
  induction sigs with
  | nil => intro st _; rfl
  | cons s rest ih =>
      intro st hset
      have hstep : installedHandler s st = st := by
        cases st with
        | mk e t c =>
            cases hset
            simp [installedHandler, eventSetAction]
      simp only [deliverAll, List.foldl_cons] at ih ⊢
      rw [hstep]
      exact ih st hset

/-- C1: in every startup run (any rpc/console flags) the registration spawn
precedes the synchronous registry call in program order, and the
registration join precedes the final termination-event wait; the two
completions are unordered: among the valid cooperative schedules there is
one where the registration greenlet completes before the registry call and
one where it completes after. -/
theorem c1_spawn_registry_join_order (rpc console : Bool) :
    spawnIdx rpc console < registryIdx rpc console ∧
    joinIdx rpc console < waitIdx rpc console ∧
    (∃ k, validSchedule rpc console k ∧
      (insertAt k .registrationCompleted (mainEvents rpc console)).indexOf
          RunEvent.registrationCompleted
        < (insertAt k .registrationCompleted (mainEvents rpc console)).indexOf
          (.act .registryCall)) ∧
    (∃ k, validSchedule rpc console k ∧
      (insertAt k .registrationCompleted (mainEvents rpc console)).indexOf
          (.act .registryCall)
        < (insertAt k .registrationCompleted (mainEvents rpc console)).indexOf
          RunEvent.registrationCompleted) := by
  cases rpc <;> cases console
  · exact ⟨by decide, by decide,
      ⟨3, ⟨by decide, by decide⟩, by decide⟩, ⟨5, ⟨by decide, by decide⟩, by decide⟩⟩
  · exact ⟨by decide, by decide,
      ⟨3, ⟨by decide, by decide⟩, by decide⟩, ⟨6, ⟨by decide, by decide⟩, by decide⟩⟩
  · exact ⟨by decide, by decide,
      ⟨3, ⟨by decide, by decide⟩, by decide⟩, ⟨6, ⟨by decide, by decide⟩, by decide⟩⟩
  · exact ⟨by decide, by decide,
      ⟨3, ⟨by decide, by decide⟩, by decide⟩, ⟨7, ⟨by decide, by decide⟩, by decide⟩⟩

/-- C8: each of the three termination signals is bound to the set operation
of the same single event, and for every non-empty sequence of delivered
signals the event undergoes exactly one unset-to-set transition and the
graceful stop is invoked exactly once. -/
theorem c8_shutdown_event_once (sigs : List Sig) (hne : sigs ≠ []) :
    (∀ s, installedHandler s = eventSetAction) ∧
    shutdownRun sigs = ⟨true, 1, 1⟩ := by
  refine ⟨fun _ => rfl, ?_⟩
  cases sigs with
  | nil => exact absurd rfl hne
  | cons s rest =>
      have hstep : installedHandler s ⟨false, 0, 0⟩ = ⟨true, 1, 0⟩ := rfl
      have hrest : deliverAll rest ⟨true, 1, 0⟩ = ⟨true, 1, 0⟩ :=
        deliverAll_of_set rest ⟨true, 1, 0⟩ rfl
      simp only [shutdownRun, deliverAll, List.foldl_cons, hstep]
      simp only [deliverAll] at hrest
      rw [hrest]
      rfl

/-- Witness for C8: a triple delivery (two interrupts then a terminate)
still yields one transition and one stop. -/
theorem c8_shutdown_event_once_witness :
    shutdownRun [.sigint, .sigint, .sigterm] = ⟨true, 1, 1⟩ :=
  (c8_shutdown_event_once [.sigint, .sigint, .sigterm] (by decide)).2

/-- C10: in every run the three handler installations come strictly after
the registration join, so a signal delivered at any point up to the join is
not routed to the shutdown event, and a set of deliveries all no later than
the join never triggers the graceful-stop path. -/
theorem c10_handlers_installed_after_join (rpc console : Bool)
    (deliveries : List (Sig × Nat))
    (h : ∀ d ∈ deliveries, d.2 ≤ joinIdx rpc console) :
    (∀ s, joinIdx rpc console < installIdx rpc console s) ∧
    (∀ d ∈ deliveries, routedToEvent rpc console d.1 d.2 = false) ∧
    stopTriggeredBy rpc console deliveries = false := by
  have hji : ∀ s, joinIdx rpc console < installIdx rpc console s := by
    intro s
    cases rpc <;> cases console <;> cases s <;> decide
  have hrt : ∀ d ∈ deliveries, routedToEvent rpc console d.1 d.2 = false := by
    intro d hd
    have h1 := h d hd
    have h2 := hji d.1
    simp only [routedToEvent, decide_eq_false_iff_not]
    omega
  refine ⟨hji, hrt, ?_⟩
  simp only [stopTriggeredBy, List.any_eq_false]
  intro d hd
  simp [hrt d hd]

/-- Witness for C10: with both flags set (join at index 7), interrupt at
time 0 and terminate at time 7 do not trigger the stop path. -/
theorem c10_handlers_installed_after_join_witness :
    stopTriggeredBy true true [(.sigint, 0), (.sigterm, 7)] = false :=
  (c10_handlers_installed_after_join true true [(.sigint, 0), (.sigterm, 7)]
    (by decide)).2.2

end RaidenCli
